import Mathlib

/-!
Shallow embedding of `src/notbadai_ide/api.py` (class `ExtensionAPI`), the
per-thread session bridge of the notbadai IDE extension API, together with
the value-object models it stores.  Inbound JSON payloads are modelled with
explicit field presence (`Option` = present/absent), the HTTP transport is
modelled as an explicit outcome value, and Python exceptions (`KeyError`,
`TypeError`, HTTP errors) are modelled with `Except`.
-/

namespace NotBadAI

/-- A JSON value, as carried in payload fields and outbound POST bodies. -/
inductive JValue where
  | null
  | str (s : String)
  | num (n : Int)
  | bool (b : Bool)
  | arr (xs : List JValue)
  | obj (fields : List (String × JValue))

/-- Modelled from the spec: `Message` value object (`models/message.py` is not
under `src/`); a plain value object constructed field-for-field from one
`chat_history` entry of the payload (`Message(**m)`). -/
structure Message where
  fields : List (String × JValue)

/-- Modelled from the spec: `Cursor` value object (`models/cursor.py` is not
under `src/`); a plain value object constructed field-for-field from the
payload's `cursor` object (`Cursor(**kwargs['cursor'])`). -/
structure Cursor where
  fields : List (String × JValue)

/-- Modelled from the spec: `APIKey` value object (`models/api_key.py` is not
under `src/`); a plain value object constructed field-for-field from one
provider record of the `api_keys` mapping (`APIKey(**v)`). -/
structure APIKey where
  fields : List (String × JValue)

/-- Modelled from the spec: `Terminal` value object (`models/terminal.py` is
not under `src/`); a plain value object holding a terminal identifier (which
may be the stored `None`) and a "current" flag, exactly as passed at the two
construction sites in `api.py` (`Terminal(self._local.current_terminal, True)`
and `Terminal(terminal, is_current_terminal)`). -/
structure Terminal where
  name : Option String
  is_current : Bool
  deriving DecidableEq

/-- Modelled from the spec: `File` value object (`models/file.py` is not under
`src/`); a plain value object holding a path, the repository root, optional
inline content and an opened flag, in the positional order used at the
construction sites in `api.py`.  For the two-argument construction used for
`context_files` (`File(p, self._local.repo_path)`) the omitted arguments are
taken as their documented defaults (no content, not opened). -/
structure File where
  path : String
  repo_path : String
  content : Option String
  is_open : Bool
  deriving DecidableEq

/-- Modelled from the spec: `CodeApplyChange` value object
(`models/code_apply.py` is not under `src/`); a plain value object combining a
target path, the repository root and a patch text, as constructed in
`ExtensionAPI.get_code_apply_change`. -/
structure CodeApplyChange where
  target_file_path : String
  repo_path : String
  patch_text : String
  deriving DecidableEq

/-- The `code_apply_change` payload object: per §6 of the spec it carries
`target_file_path` and `patch_text`. -/
structure CodeApplyData where
  target_file_path : String
  patch_text : String
  deriving DecidableEq

/-- The decoded `data` object of the inbound `GET` response, with explicit
field presence: an outer `none` means the key is absent from the payload.
For the nullable bracket-accessed keys (`current_file`, `cursor`) the inner
`Option` is the JSON `null`.  Fields read with `kwargs.get(...)` treat JSON
`null` and absence alike, so they carry a single `Option`/default layer. -/
structure Payload where
  request_id : Option String
  repo_path : Option String
  selection : Option String
  clip_board : Option String
  prompt : Option String
  chat_history : Option (List (List (String × JValue)))
  current_terminal : Option String
  terminals : Option (List String)
  api_keys : Option (List (String × List (String × JValue)))
  settings : Option (List (String × JValue))
  ui_action : Option (List (String × String))
  code_apply_change : Option CodeApplyData
  opened_files : Option (List String)
  repo : Option (List String)
  current_file : Option (Option String)
  current_file_content : Option String
  context_files : Option (List (String × List String))
  cursor : Option (Option (List (String × JValue)))

/-- A payload with every recognized key absent. -/
def emptyPayload : Payload where
  request_id := none
  repo_path := none
  selection := none
  clip_board := none
  prompt := none
  chat_history := none
  current_terminal := none
  terminals := none
  api_keys := none
  settings := none
  ui_action := none
  code_apply_change := none
  opened_files := none
  repo := none
  current_file := none
  current_file_content := none
  context_files := none
  cursor := none

/-- Transport-level failures of the HTTP layer: the connection failed, or
`raise_for_status` raised on a non-success HTTP status code. -/
inductive TransportError where
  | connectionFailure
  | httpError (status : Nat)
  deriving DecidableEq

/-- Errors surfacing from the bridge, modelling the Python exceptions:
transport errors, `KeyError` on a missing dictionary key, and `TypeError`
on an operation applied to `None`. -/
inductive ApiError where
  | transport (e : TransportError)
  | keyError (key : String)
  | typeError (msg : String)
  deriving DecidableEq

/-- The thread-local Session Context populated by `ExtensionAPI.load`
(the `self._local` attributes of `api.py`, lines 21 and 29-60). -/
structure Context where
  uuid : String
  request_id : String
  repo_path : String
  selection : Option String
  clip_board : Option String
  prompt : Option String
  chat_history : List Message
  current_terminal : Option String
  terminals : List String
  api_keys : List (String × List (String × JValue))
  settings : List (String × JValue)
  ui_action : Option (List (String × String))
  code_apply_change : Option CodeApplyData
  repo_files : List File
  current_file : Option File
  context_files : List (String × List File)
  cursor : Option Cursor

namespace ExtensionAPI

/-- Core of `ExtensionAPI.load` (api.py lines 29-60): builds the Session
Context from the decoded payload dictionary `kwargs` and the extension uuid.
Bracket accesses `kwargs['request_id']`, `kwargs['repo_path']`,
`kwargs['repo']`, `kwargs['current_file']`, `kwargs['cursor']` raise
`KeyError` when the key is absent; `set(kwargs.get('opened_files'))` raises
`TypeError` when `opened_files` is absent; every `kwargs.get(k, default)`
field falls back to its default.  Failures are sequenced in source order. -/
def loadCtx (uuid : String) (kwargs : Payload) : Except ApiError Context :=
  match kwargs.request_id with
  | none => .error (.keyError "request_id")
  | some request_id =>
  match kwargs.repo_path with
  | none => .error (.keyError "repo_path")
  | some repo_path =>
  match kwargs.opened_files with
  | none => .error (.typeError "argument of type NoneType is not iterable")
  | some opened_files =>
  match kwargs.repo with
  | none => .error (.keyError "repo")
  | some repo =>
  match kwargs.current_file with
  | none => .error (.keyError "current_file")
  | some current_file_path =>
  match kwargs.cursor with
  | none => .error (.keyError "cursor")
  | some cursor_data =>
  .ok {
    uuid := uuid
    request_id := request_id
    repo_path := repo_path
    selection := kwargs.selection
    clip_board := kwargs.clip_board
    prompt := kwargs.prompt
    chat_history := (kwargs.chat_history.getD []).map Message.mk
    current_terminal := kwargs.current_terminal
    terminals := kwargs.terminals.getD []
    api_keys := kwargs.api_keys.getD []
    settings := kwargs.settings.getD []
    ui_action := kwargs.ui_action
    code_apply_change := kwargs.code_apply_change
    repo_files := repo.map (fun p => File.mk p repo_path none (opened_files.contains p))
    current_file := current_file_path.map
      (fun path => File.mk path repo_path kwargs.current_file_content true)
    context_files := (kwargs.context_files.getD []).map
      (fun entry => (entry.1, entry.2.map (fun p => File.mk p repo_path none false)))
    cursor := cursor_data.map Cursor.mk
  }

/-- `ExtensionAPI.cleanup` (api.py lines 62-64): clears the thread-local
attribute dictionary, leaving the thread with no Session Context.  The
per-thread state is `Option Context` (`none` = uninitialized). -/
def cleanup (_s : Option Context) : Option Context := none

/-- `ExtensionAPI.get_repo_files`. -/
def get_repo_files (c : Context) : List File := c.repo_files

/-- `ExtensionAPI.get_repo_path`. -/
def get_repo_path (c : Context) : String := c.repo_path

/-- `ExtensionAPI.get_current_file`. -/
def get_current_file (c : Context) : Option File := c.current_file

/-- `ExtensionAPI.get_selection`. -/
def get_selection (c : Context) : Option String := c.selection

/-- `ExtensionAPI.get_clip_board`. -/
def get_clip_board (c : Context) : Option String := c.clip_board

/-- `ExtensionAPI.get_cursor`. -/
def get_cursor (c : Context) : Option Cursor := c.cursor

/-- `ExtensionAPI.get_chat_history`. -/
def get_chat_history (c : Context) : List Message := c.chat_history

/-- `ExtensionAPI.get_current_terminal` (api.py lines 143-150): always wraps
the stored identifier (possibly `None`) in a Terminal flagged current. -/
def get_current_terminal (c : Context) : Terminal :=
  Terminal.mk c.current_terminal true

/-- `ExtensionAPI.get_terminals` (api.py lines 152-164): wraps every stored
identifier, flagging those equal to the stored `current_terminal`. -/
def get_terminals (c : Context) : List Terminal :=
  c.terminals.map (fun terminal => Terminal.mk (some terminal) (some terminal == c.current_terminal))

/-- `ExtensionAPI.get_code_apply_change` (api.py lines 166-177): subscripts
the stored `code_apply_change`; when that is `None` (the load-time default),
the subscript raises `TypeError`. -/
def get_code_apply_change (c : Context) : Except ApiError CodeApplyChange :=
  match c.code_apply_change with
  | none => .error (.typeError "NoneType object is not subscriptable")
  | some data => .ok (CodeApplyChange.mk data.target_file_path c.repo_path data.patch_text)

/-- `ExtensionAPI.get_context_files`. -/
def get_context_files (c : Context) : List (String × List File) := c.context_files

/-- `ExtensionAPI.get_prompt`. -/
def get_prompt (c : Context) : Option String := c.prompt

/-- `ExtensionAPI.get_api_key` (api.py lines 197-210). -/
def get_api_key (c : Context) (provider : String) : Option APIKey :=
  (c.api_keys.lookup provider).map APIKey.mk

/-- `ExtensionAPI.get_api_keys` (api.py lines 212-222). -/
def get_api_keys (c : Context) : List APIKey :=
  c.api_keys.map (fun kv => APIKey.mk kv.2)

/-- `ExtensionAPI.get_setting` (api.py lines 224-234): `None` for unknown
setting names. -/
def get_setting (c : Context) (setting : String) : Option JValue :=
  c.settings.lookup setting

/-- `ExtensionAPI.get_ui_action`. -/
def get_ui_action (c : Context) : Option (List (String × String)) := c.ui_action

/-- One outbound `POST /api/extension/response/{uuid}` request, as issued by
`ExtensionAPI._dump` (api.py line 71): the target uuid and the JSON body. -/
structure PostRequest where
  uuid : String
  body : List (String × JValue)

/-- `ExtensionAPI._dump` (api.py lines 66-71), description side: builds the
body from the named arguments, then adds `method` and the session's
`request_id`, and addresses the session uuid. -/
def dump (c : Context) (method : String) (kwargs : List (String × JValue)) : PostRequest :=
  PostRequest.mk c.uuid (kwargs ++ [("method", .str method), ("request_id", .str c.request_id)])

/-- `ExtensionAPI.chat`: the outbound POSTs issued by one invocation. -/
def chat (c : Context) (content : String) : List PostRequest :=
  [dump c "chat" [("content", .str content)]]

/-- `ExtensionAPI.end_chat`: the outbound POSTs issued by one invocation. -/
def end_chat (c : Context) : List PostRequest :=
  [dump c "end_chat" []]

/-- `ExtensionAPI.start_chat`: the outbound POSTs issued by one invocation. -/
def start_chat (c : Context) : List PostRequest :=
  [dump c "start_chat" []]

/-- `ExtensionAPI.autocomplete`: the outbound POSTs issued by one
invocation. -/
def autocomplete (c : Context) (suggestions : List (List (String × String))) : List PostRequest :=
  [dump c "autocomplete"
    [("suggestions", .arr (suggestions.map (fun s => .obj (s.map (fun kv => (kv.1, .str kv.2))))))]]

/-- `ExtensionAPI.update_file`: the outbound POSTs issued by one invocation
(the source parameter is named `matches`, a reserved word here). -/
def update_file (c : Context) (patch : List String) (matches_ : List (List Int)) : List PostRequest :=
  [dump c "update_file"
    [("patch", .arr (patch.map .str)),
     ("matches", .arr (matches_.map (fun m => .arr (m.map .num))))]]

/-- `ExtensionAPI.highlight`: the outbound POSTs issued by one invocation. -/
def highlight (c : Context) (results : List (List (String × JValue))) : List PostRequest :=
  [dump c "highlight" [("results", .arr (results.map .obj))]]

/-- `ExtensionAPI.inline_completion`: the outbound POSTs issued by one
invocation (the `text` argument is posted under the key `content`). -/
def inline_completion (c : Context) (text : String) (cursor_row cursor_column : Option Int) : List PostRequest :=
  [dump c "inline_completion"
    [("content", .str text),
     ("cursor_row", cursor_row.elim .null .num),
     ("cursor_column", cursor_column.elim .null .num)]]

/-- `ExtensionAPI.log`: the outbound POSTs issued by one invocation (the
`message` argument is posted under the key `content`). -/
def log (c : Context) (message : String) : List PostRequest :=
  [dump c "log" [("content", .str message)]]

/-- `ExtensionAPI.ui_form`: the outbound POSTs issued by one invocation. -/
def ui_form (c : Context) (title : String) (form_content : String) : List PostRequest :=
  [dump c "ui_form" [("title", .str title), ("form_content", .str form_content)]]

/-- Outcome of one HTTP round trip attempted by the transport: the
connection failed, or the host answered with some status code. -/
inductive PostOutcome where
  | connError
  | response (status : Nat)
  deriving DecidableEq

/-- The `requests.post`/`requests.get` transport call: it raises only when
the underlying connection fails; when the host answers, it returns the
response whatever its HTTP status code (statuses are raised only by an
explicit `raise_for_status`). -/
def requests_send (o : PostOutcome) : Except TransportError Nat :=
  match o with
  | .connError => .error .connectionFailure
  | .response status => .ok status

/-- `Response.raise_for_status` of the transport: raises an HTTP error for
client-error and server-error statuses (4xx/5xx), succeeds otherwise. -/
def raise_for_status (status : Nat) : Except TransportError Unit :=
  if 400 ≤ status ∧ status < 600 then .error (.httpError status) else .ok ()

/-- Execution side of `ExtensionAPI._dump` (api.py line 71): performs the
POST and discards the response object without inspecting its status. -/
def dump_send (o : PostOutcome) : Except TransportError Unit :=
  match requests_send o with
  | .error e => .error e
  | .ok _status => .ok ()

/-- Outcome of the inbound fetch of `ExtensionAPI._load_data`: connection
failure, or a response with a status and a body.  The body is modelled as
decoded JSON: `some kwargs` when the body is an object whose `data` key
decodes to the payload, `none` when the `data` key is missing. -/
inductive FetchOutcome where
  | connError
  | response (status : Nat) (data : Option Payload)

/-- `ExtensionAPI._load_data` (api.py lines 73-78): GETs the session payload,
calls `raise_for_status`, then returns the body's `data` field. -/
def load_data (o : FetchOutcome) : Except ApiError Payload :=
  match o with
  | .connError => .error (.transport .connectionFailure)
  | .response status data =>
    match raise_for_status status with
    | .error e => .error (.transport e)
    | .ok () =>
      match data with
      | none => .error (.keyError "data")
      | some kwargs => .ok kwargs

/-- `ExtensionAPI.load` (api.py lines 20-60): fetches the payload via
`_load_data` and populates the Session Context for the calling thread. -/
def load (uuid : String) (o : FetchOutcome) : Except ApiError Context :=
  match load_data o with
  | .error e => .error e
  | .ok kwargs => loadCtx uuid kwargs

/-- `ExtensionAPI.load` as a transition on the per-thread state: a successful
load overwrites every Session Context field of the calling thread (api.py
lines 29-60 assign all `self._local` attributes unconditionally), so the
prior state does not survive into the result. -/
def load_into (uuid : String) (kwargs : Payload) (_s : Option Context) : Except ApiError (Option Context) :=
  (loadCtx uuid kwargs).map some

/-- The load-cleanup-load round trip on one thread (api.py `load` and
`cleanup`): load a first payload, clear the thread state, load a second
payload; the resulting per-thread state. -/
def load_cleanup_load (uuid : String) (kwargs1 kwargs2 : Payload) : Except ApiError (Option Context) :=
  match load_into uuid kwargs1 none with
  | .error e => .error e
  | .ok s1 => load_into uuid kwargs2 (cleanup s1)

end ExtensionAPI

/-! Helper lemmas and sample inputs. -/

/-- The Session Context that `loadCtx` builds once the six bracket-accessed
required fields are in hand, spelled out as a record. -/
def builtContext (uuid : String) (k : Payload) (rid rp : String)
    (opened repo : List String) (cfp : Option String)
    (cur : Option (List (String × JValue))) : Context where
  uuid := uuid
  request_id := rid
  repo_path := rp
  selection := k.selection
  clip_board := k.clip_board
  prompt := k.prompt
  chat_history := (k.chat_history.getD []).map Message.mk
  current_terminal := k.current_terminal
  terminals := k.terminals.getD []
  api_keys := k.api_keys.getD []
  settings := k.settings.getD []
  ui_action := k.ui_action
  code_apply_change := k.code_apply_change
  repo_files := repo.map (fun p => File.mk p rp none (opened.contains p))
  current_file := cfp.map (fun path => File.mk path rp k.current_file_content true)
  context_files := (k.context_files.getD []).map
    (fun entry => (entry.1, entry.2.map (fun p => File.mk p rp none false)))
  cursor := cur.map Cursor.mk

/-- When the six required fields are present, `loadCtx` succeeds and returns
exactly `builtContext`. -/
theorem loadCtx_eq_ok (uuid : String) (k : Payload) (rid rp : String)
    (opened repo : List String) (cfp : Option String)
    (cur : Option (List (String × JValue)))
    (h1 : k.request_id = some rid) (h2 : k.repo_path = some rp)
    (h3 : k.opened_files = some opened) (h4 : k.repo = some repo)
    (h5 : k.current_file = some cfp) (h6 : k.cursor = some cur) :
    ExtensionAPI.loadCtx uuid k = .ok (builtContext uuid k rid rp opened repo cfp cur) := by
  unfold ExtensionAPI.loadCtx builtContext
  rw [h1, h2, h3, h4, h5, h6]

/-- Inversion: a successful `loadCtx` forces the six required fields to be
present and the resulting context to be `builtContext`. -/
theorem loadCtx_ok_inv (uuid : String) (k : Payload) (c : Context)
    (h : ExtensionAPI.loadCtx uuid k = .ok c) :
    ∃ rid rp opened repo cfp cur,
      k.request_id = some rid ∧ k.repo_path = some rp ∧
      k.opened_files = some opened ∧ k.repo = some repo ∧
      k.current_file = some cfp ∧ k.cursor = some cur ∧
      c = builtContext uuid k rid rp opened repo cfp cur := by
  unfold ExtensionAPI.loadCtx at h
  rcases h1 : k.request_id with _ | rid <;> rw [h1] at h
  · exact absurd h (by simp)
  rcases h2 : k.repo_path with _ | rp <;> rw [h2] at h
  · exact absurd h (by simp)
  rcases h3 : k.opened_files with _ | opened <;> rw [h3] at h
  · exact absurd h (by simp)
  rcases h4 : k.repo with _ | repo <;> rw [h4] at h
  · exact absurd h (by simp)
  rcases h5 : k.current_file with _ | cfp <;> rw [h5] at h
  · exact absurd h (by simp)
  rcases h6 : k.cursor with _ | cur <;> rw [h6] at h
  · exact absurd h (by simp)
  refine ⟨rid, rp, opened, repo, cfp, cur, rfl, rfl, rfl, rfl, rfl, rfl, ?_⟩
  cases h
  rfl

/-- The concrete scenario payload of §8 of the spec: required fields present
(`current_file` and `cursor` are JSON `null`), every optional field absent. -/
def samplePayload1 : Payload :=
  { emptyPayload with
      request_id := some "r1"
      repo_path := some "/proj"
      opened_files := some []
      repo := some ["x.py"]
      current_file := some none
      cursor := some none }

/-- The Session Context produced by loading `samplePayload1`. -/
def sampleCtx1 : Context where
  uuid := "u"
  request_id := "r1"
  repo_path := "/proj"
  selection := none
  clip_board := none
  prompt := none
  chat_history := []
  current_terminal := none
  terminals := []
  api_keys := []
  settings := []
  ui_action := none
  code_apply_change := none
  repo_files := [File.mk "x.py" "/proj" none false]
  current_file := none
  context_files := []
  cursor := none

/-- A richer payload: two repo files of which one is opened, a current file
that is not among the opened files, two terminals with one current, and a
selection. -/
def samplePayload2 : Payload :=
  { emptyPayload with
      request_id := some "r2"
      repo_path := some "/proj"
      selection := some "sel"
      current_terminal := some "t1"
      terminals := some ["t0", "t1"]
      opened_files := some ["b.py"]
      repo := some ["a.py", "b.py"]
      current_file := some (some "a.py")
      cursor := some none }

/-- The Session Context produced by loading `samplePayload2`. -/
def sampleCtx2 : Context where
  uuid := "u"
  request_id := "r2"
  repo_path := "/proj"
  selection := some "sel"
  clip_board := none
  prompt := none
  chat_history := []
  current_terminal := some "t1"
  terminals := ["t0", "t1"]
  api_keys := []
  settings := []
  ui_action := none
  code_apply_change := none
  repo_files := [File.mk "a.py" "/proj" none false, File.mk "b.py" "/proj" none true]
  current_file := some (File.mk "a.py" "/proj" none true)
  context_files := []
  cursor := none

/-- Like `samplePayload1` but with two terminals stored and no current
terminal. -/
def samplePayload3 : Payload :=
  { samplePayload1 with terminals := some ["t0", "t1"] }

/-- The Session Context produced by loading `samplePayload3`. -/
def sampleCtx3 : Context :=
  { sampleCtx1 with terminals := ["t0", "t1"] }

theorem loadCtx_samplePayload1 :
    ExtensionAPI.loadCtx "u" samplePayload1 = .ok sampleCtx1 := rfl

theorem loadCtx_samplePayload2 :
    ExtensionAPI.loadCtx "u" samplePayload2 = .ok sampleCtx2 := rfl

/-! Claim theorems. -/

/-- C8: `cleanup()` is idempotent and safe without a context: it never
fails, clearing twice equals clearing once, and after any call the calling
thread's Session Context is fully discarded (state `none`). -/
theorem cleanup_idempotent_safe :
    ExtensionAPI.cleanup (none : Option Context) = none ∧
    ∀ s : Option Context,
      ExtensionAPI.cleanup (ExtensionAPI.cleanup s) = ExtensionAPI.cleanup s ∧
      ExtensionAPI.cleanup s = none :=
  ⟨rfl, fun _ => ⟨rfl, rfl⟩⟩

/-- C9: after any successful `load()`, `get_current_terminal()` returns a
Terminal flagged current; when the payload's `current_terminal` was absent
(or `None`), it returns a Terminal wrapping the identifier `None` rather
than returning `None` or failing. -/
theorem get_current_terminal_always_flagged (uuid : String) (k : Payload) (c : Context)
    (h : ExtensionAPI.loadCtx uuid k = .ok c) :
    (ExtensionAPI.get_current_terminal c).is_current = true ∧
    (k.current_terminal = none →
      ExtensionAPI.get_current_terminal c = Terminal.mk none true) := by
  obtain ⟨rid, rp, opened, repo, cfp, cur, _, _, _, _, _, _, hc⟩ :=
    loadCtx_ok_inv uuid k c h
  subst hc
  exact ⟨rfl, fun hct => by simp [ExtensionAPI.get_current_terminal, builtContext, hct]⟩

theorem get_current_terminal_always_flagged_witness :
    (ExtensionAPI.get_current_terminal sampleCtx1).is_current = true ∧
    (samplePayload1.current_terminal = none →
      ExtensionAPI.get_current_terminal sampleCtx1 = Terminal.mk none true) :=
  get_current_terminal_always_flagged "u" samplePayload1 sampleCtx1 rfl

/-- C10: after any successful `load()` whose payload has a non-null
`current_file` path, the File returned by `get_current_file()` is flagged
opened, regardless of `opened_files`. -/
theorem current_file_always_opened (uuid : String) (k : Payload) (c : Context) (path : String)
    (h : ExtensionAPI.loadCtx uuid k = .ok c) (hcf : k.current_file = some (some path)) :
    ∃ f, ExtensionAPI.get_current_file c = some f ∧ f.path = path ∧ f.is_open = true := by
  obtain ⟨rid, rp, opened, repo, cfp, cur, _, _, _, _, h5, _, hc⟩ :=
    loadCtx_ok_inv uuid k c h
  subst hc
  rw [hcf] at h5
  cases h5
  exact ⟨_, rfl, rfl, rfl⟩

/-- C5: after a `load()` whose payload carries `terminals`, `get_terminals()`
returns one Terminal per stored identifier; when `current_terminal` is
non-`None` and matches exactly one stored identifier, exactly one entry is
flagged current and every flagged entry wraps that identifier; when
`current_terminal` is `None`, no entry is flagged current. -/
theorem get_terminals_current_marking (uuid : String) (k : Payload) (c : Context)
    (ts : List String)
    (h : ExtensionAPI.loadCtx uuid k = .ok c) (hts : k.terminals = some ts) :
    ((ExtensionAPI.get_terminals c).map Terminal.name = ts.map some) ∧
    (∀ t : String, k.current_terminal = some t → ts.count t = 1 →
      ((ExtensionAPI.get_terminals c).countP (fun tm => tm.is_current) = 1 ∧
        ∀ tm ∈ ExtensionAPI.get_terminals c, tm.is_current = true → tm.name = some t)) ∧
    (k.current_terminal = none →
      ∀ tm ∈ ExtensionAPI.get_terminals c, tm.is_current = false) := by
  obtain ⟨rid, rp, opened, repo, cfp, cur, _, _, _, _, _, _, hc⟩ :=
    loadCtx_ok_inv uuid k c h
  subst hc
  refine ⟨?_, ?_, ?_⟩
  · simp [ExtensionAPI.get_terminals, builtContext, hts]
  · intro t hct hcount
    constructor
    · simp only [ExtensionAPI.get_terminals, builtContext, hts, hct, Option.getD_some,
        List.countP_map]
      rw [← hcount, List.count_eq_countP]
      apply List.countP_congr
      intro x _
      simp [Function.comp]
    · intro tm htm hcur
      simp only [ExtensionAPI.get_terminals, builtContext, hts, hct, Option.getD_some,
        List.mem_map] at htm
      obtain ⟨x, _, rfl⟩ := htm
      simp_all
  · intro hct tm htm
    simp only [ExtensionAPI.get_terminals, builtContext, hts, hct, Option.getD_some,
      List.mem_map] at htm
    obtain ⟨x, _, rfl⟩ := htm
    rfl

theorem get_terminals_current_marking_witness :
    (((ExtensionAPI.get_terminals sampleCtx2).map Terminal.name = ["t0", "t1"].map some) ∧
      (ExtensionAPI.get_terminals sampleCtx2).countP (fun tm => tm.is_current) = 1 ∧
      ∀ tm ∈ ExtensionAPI.get_terminals sampleCtx2, tm.is_current = true → tm.name = some "t1") ∧
    (samplePayload3.current_terminal = none →
      ∀ tm ∈ ExtensionAPI.get_terminals sampleCtx3, tm.is_current = false) :=
  ⟨⟨(get_terminals_current_marking "u" samplePayload2 sampleCtx2 ["t0", "t1"] rfl rfl).1,
    (get_terminals_current_marking "u" samplePayload2 sampleCtx2 ["t0", "t1"] rfl rfl).2.1
      "t1" rfl (by decide)⟩,
    (get_terminals_current_marking "u" samplePayload3 sampleCtx3 ["t0", "t1"] rfl rfl).2.2⟩

/-- C7: after a `load()` with `repo` and `opened_files` present, the Session
Context holds one File record per repo path, in order, and each record is
flagged opened exactly when its path occurs in `opened_files`; in particular
`repo=["a.py","b.py"]` with `opened_files=["b.py"]` flags `a.py` not-opened
and `b.py` opened. -/
theorem repo_files_opened_flags (uuid : String) (k : Payload) (c : Context)
    (repo opened : List String)
    (h : ExtensionAPI.loadCtx uuid k = .ok c)
    (hr : k.repo = some repo) (ho : k.opened_files = some opened) :
    ((ExtensionAPI.get_repo_files c).map File.path = repo) ∧
    (∀ f ∈ ExtensionAPI.get_repo_files c, f.is_open = opened.contains f.path) := by
  obtain ⟨rid, rp, opened', repo', cfp, cur, _, _, h3, h4, _, _, hc⟩ :=
    loadCtx_ok_inv uuid k c h
  subst hc
  rw [hr] at h4
  rw [ho] at h3
  cases h4
  cases h3
  constructor
  · rw [ExtensionAPI.get_repo_files, builtContext, List.map_map]
    exact List.map_id repo
  · intro f hf
    simp only [ExtensionAPI.get_repo_files, builtContext, List.mem_map] at hf
    obtain ⟨p, _, rfl⟩ := hf
    rfl

theorem repo_files_opened_flags_witness :
    (ExtensionAPI.get_repo_files sampleCtx2 =
      [File.mk "a.py" "/proj" none false, File.mk "b.py" "/proj" none true]) ∧
    ((ExtensionAPI.get_repo_files sampleCtx2).map File.path = ["a.py", "b.py"]) ∧
    (∀ f ∈ ExtensionAPI.get_repo_files sampleCtx2,
      f.is_open = (["b.py"].contains f.path)) :=
  ⟨rfl, repo_files_opened_flags "u" samplePayload2 sampleCtx2 ["a.py", "b.py"] ["b.py"]
    rfl rfl rfl⟩

theorem current_file_always_opened_witness :
    (samplePayload2.opened_files = some ["b.py"] ∧ (["b.py"].contains "a.py") = false) ∧
    ∃ f, ExtensionAPI.get_current_file sampleCtx2 = some f ∧
      f.path = "a.py" ∧ f.is_open = true :=
  ⟨⟨rfl, rfl⟩, current_file_always_opened "u" samplePayload2 sampleCtx2 "a.py" rfl rfl⟩

/-- C1 counterexample: omitting the recognized field `repo_path` makes
`load()` itself fail with a `KeyError` instead of any accessor defaulting;
and with `code_apply_change` omitted, `load()` succeeds but
`get_code_apply_change()` fails with a `TypeError` instead of returning a
default. -/
theorem load_field_defaults_counterexample :
    ExtensionAPI.loadCtx "u" { samplePayload2 with repo_path := none } =
      .error (.keyError "repo_path") ∧
    samplePayload1.code_apply_change = none ∧
    ExtensionAPI.loadCtx "u" samplePayload1 = .ok sampleCtx1 ∧
    ExtensionAPI.get_code_apply_change sampleCtx1 =
      .error (.typeError "NoneType object is not subscriptable") :=
  ⟨rfl, rfl, rfl, rfl⟩

/-- C1 (amended): when the six required fields (`request_id`, `repo_path`,
`opened_files`, `repo`, `current_file`, `cursor`) are present, `load()`
succeeds, and every genuinely optional field that is absent defaults to
`None`/the empty collection through its accessor; `code_apply_change`
defaults to `None` in the context, but its accessor then fails rather than
returning a default. -/
theorem load_optional_field_defaults (uuid : String) (k : Payload)
    (rid rp : String) (opened repo : List String) (cfp : Option String)
    (cur : Option (List (String × JValue)))
    (h1 : k.request_id = some rid) (h2 : k.repo_path = some rp)
    (h3 : k.opened_files = some opened) (h4 : k.repo = some repo)
    (h5 : k.current_file = some cfp) (h6 : k.cursor = some cur) :
    ∃ c, ExtensionAPI.loadCtx uuid k = .ok c ∧
      (k.selection = none → ExtensionAPI.get_selection c = none) ∧
      (k.clip_board = none → ExtensionAPI.get_clip_board c = none) ∧
      (k.prompt = none → ExtensionAPI.get_prompt c = none) ∧
      (k.chat_history = none → ExtensionAPI.get_chat_history c = []) ∧
      (k.current_terminal = none → c.current_terminal = none) ∧
      (k.terminals = none → ExtensionAPI.get_terminals c = []) ∧
      (k.api_keys = none → ExtensionAPI.get_api_keys c = [] ∧
        ∀ provider, ExtensionAPI.get_api_key c provider = none) ∧
      (k.settings = none → ∀ s, ExtensionAPI.get_setting c s = none) ∧
      (k.ui_action = none → ExtensionAPI.get_ui_action c = none) ∧
      (k.context_files = none → ExtensionAPI.get_context_files c = []) ∧
      (cfp = none → ExtensionAPI.get_current_file c = none) ∧
      (cur = none → ExtensionAPI.get_cursor c = none) ∧
      (k.code_apply_change = none →
        ExtensionAPI.get_code_apply_change c =
          .error (.typeError "NoneType object is not subscriptable")) := by
  refine ⟨builtContext uuid k rid rp opened repo cfp cur,
    loadCtx_eq_ok uuid k rid rp opened repo cfp cur h1 h2 h3 h4 h5 h6,
    ?_, ?_, ?_, ?_, ?_, ?_, ?_, ?_, ?_, ?_, ?_, ?_, ?_⟩
  · intro hx; simp [ExtensionAPI.get_selection, builtContext, hx]
  · intro hx; simp [ExtensionAPI.get_clip_board, builtContext, hx]
  · intro hx; simp [ExtensionAPI.get_prompt, builtContext, hx]
  · intro hx; simp [ExtensionAPI.get_chat_history, builtContext, hx]
  · intro hx; simp [builtContext, hx]
  · intro hx; simp [ExtensionAPI.get_terminals, builtContext, hx]
  · intro hx
    exact ⟨by simp [ExtensionAPI.get_api_keys, builtContext, hx],
      fun provider => by simp [ExtensionAPI.get_api_key, builtContext, hx]⟩
  · intro hx s; simp [ExtensionAPI.get_setting, builtContext, hx]
  · intro hx; simp [ExtensionAPI.get_ui_action, builtContext, hx]
  · intro hx; simp [ExtensionAPI.get_context_files, builtContext, hx]
  · intro hx; simp [ExtensionAPI.get_current_file, builtContext, hx]
  · intro hx; simp [ExtensionAPI.get_cursor, builtContext, hx]
  · intro hx; simp [ExtensionAPI.get_code_apply_change, builtContext, hx]

theorem load_optional_field_defaults_witness :
    ∃ c, ExtensionAPI.loadCtx "u" samplePayload1 = .ok c ∧
      (samplePayload1.selection = none → ExtensionAPI.get_selection c = none) ∧
      (samplePayload1.clip_board = none → ExtensionAPI.get_clip_board c = none) ∧
      (samplePayload1.prompt = none → ExtensionAPI.get_prompt c = none) ∧
      (samplePayload1.chat_history = none → ExtensionAPI.get_chat_history c = []) ∧
      (samplePayload1.current_terminal = none → c.current_terminal = none) ∧
      (samplePayload1.terminals = none → ExtensionAPI.get_terminals c = []) ∧
      (samplePayload1.api_keys = none → ExtensionAPI.get_api_keys c = [] ∧
        ∀ provider, ExtensionAPI.get_api_key c provider = none) ∧
      (samplePayload1.settings = none → ∀ s, ExtensionAPI.get_setting c s = none) ∧
      (samplePayload1.ui_action = none → ExtensionAPI.get_ui_action c = none) ∧
      (samplePayload1.context_files = none → ExtensionAPI.get_context_files c = []) ∧
      ((none : Option String) = none → ExtensionAPI.get_current_file c = none) ∧
      ((none : Option (List (String × JValue))) = none → ExtensionAPI.get_cursor c = none) ∧
      (samplePayload1.code_apply_change = none →
        ExtensionAPI.get_code_apply_change c =
          .error (.typeError "NoneType object is not subscriptable")) :=
  load_optional_field_defaults "u" samplePayload1 "r1" "/proj" [] ["x.py"] none none
    rfl rfl rfl rfl rfl rfl

/-- C2 counterexample: a POST answered with HTTP status 500 — a non-success
status — does not fail: `_dump` never inspects the response status, so the
call returns normally instead of failing with a TransportError. -/
theorem dump_nonsuccess_status_counterexample :
    ExtensionAPI.dump_send (.response 500) = .ok () := rfl

/-- C2 (amended): each outbound action's POST returns no value whatever HTTP
status the host answers with — the response status is never inspected — and
only an underlying connection failure propagates as a TransportError. -/
theorem dump_transport_behavior :
    (∀ status : Nat, ExtensionAPI.dump_send (.response status) = .ok ()) ∧
    ExtensionAPI.dump_send .connError = .error .connectionFailure :=
  ⟨fun _ => rfl, rfl⟩

/-- C3: when the GET fetch of the session payload is answered with a
non-success HTTP status, `load()` fails with a TransportError carrying that
HTTP error and constructs no Session Context from the body, whatever the
body holds. -/
theorem load_data_http_error (uuid : String) (status : Nat) (data : Option Payload)
    (h4xx : 400 ≤ status) (h6xx : status < 600) :
    ExtensionAPI.load_data (.response status data) =
      .error (.transport (.httpError status)) ∧
    ExtensionAPI.load uuid (.response status data) =
      .error (.transport (.httpError status)) := by
  have hs : ExtensionAPI.raise_for_status status = .error (.httpError status) := by
    simp [ExtensionAPI.raise_for_status, h4xx, h6xx]
  exact ⟨by simp [ExtensionAPI.load_data, hs],
    by simp [ExtensionAPI.load, ExtensionAPI.load_data, hs]⟩

theorem load_data_http_error_witness :
    ExtensionAPI.load_data (.response 404 (some samplePayload1)) =
      .error (.transport (.httpError 404)) ∧
    ExtensionAPI.load "u" (.response 404 (some samplePayload1)) =
      .error (.transport (.httpError 404)) :=
  load_data_http_error "u" 404 (some samplePayload1) (by decide) (by decide)

/-- C6: loading a first payload, cleaning up, then loading a second payload
on the same thread produces the state that loading the second payload into
a fresh thread produces — nothing of the first payload survives; in
particular when the second payload omits `selection`, `get_selection()`
afterwards returns `None` even if the first payload carried a selection. -/
theorem load_cleanup_load_no_leakage (uuid : String) (k1 k2 : Payload) (c1 : Context)
    (h1 : ExtensionAPI.loadCtx uuid k1 = .ok c1) :
    ExtensionAPI.load_cleanup_load uuid k1 k2 = ExtensionAPI.load_into uuid k2 none ∧
    (∀ c2, ExtensionAPI.loadCtx uuid k2 = .ok c2 → k2.selection = none →
      ExtensionAPI.load_cleanup_load uuid k1 k2 = .ok (some c2) ∧
      ExtensionAPI.get_selection c2 = none) := by
  constructor
  · simp [ExtensionAPI.load_cleanup_load, ExtensionAPI.load_into, Except.map, h1]
  · intro c2 h2 hsel
    refine ⟨by simp [ExtensionAPI.load_cleanup_load, ExtensionAPI.load_into, Except.map, h1, h2], ?_⟩
    obtain ⟨rid, rp, opened, repo, cfp, cur, _, _, _, _, _, _, hc⟩ :=
      loadCtx_ok_inv uuid k2 c2 h2
    subst hc
    simp [ExtensionAPI.get_selection, builtContext, hsel]

theorem load_cleanup_load_no_leakage_witness :
    samplePayload2.selection = some "sel" ∧
    samplePayload1.selection = none ∧
    ExtensionAPI.load_cleanup_load "u" samplePayload2 samplePayload1 =
      .ok (some sampleCtx1) ∧
    ExtensionAPI.get_selection sampleCtx1 = none :=
  ⟨rfl, rfl,
    (load_cleanup_load_no_leakage "u" samplePayload2 samplePayload1 sampleCtx2 rfl).2
      sampleCtx1 rfl rfl⟩

/-- C4: each of the nine action methods issues exactly one outbound POST
whose JSON body carries a `method` field equal to the action's name and a
`request_id` field equal to the request identifier captured from the
payload at `load()` time, together with the action's named arguments. -/
theorem actions_single_post_method_request_id (uuid : String) (k : Payload)
    (c : Context) (rid : String)
    (h : ExtensionAPI.loadCtx uuid k = .ok c) (hrid : k.request_id = some rid) :
    (∀ content, ∃ r, ExtensionAPI.chat c content = [r] ∧
      r.body.lookup "method" = some (.str "chat") ∧
      r.body.lookup "request_id" = some (.str rid) ∧
      r.body.lookup "content" = some (.str content)) ∧
    (∃ r, ExtensionAPI.end_chat c = [r] ∧
      r.body.lookup "method" = some (.str "end_chat") ∧
      r.body.lookup "request_id" = some (.str rid)) ∧
    (∃ r, ExtensionAPI.start_chat c = [r] ∧
      r.body.lookup "method" = some (.str "start_chat") ∧
      r.body.lookup "request_id" = some (.str rid)) ∧
    (∀ suggestions, ∃ r, ExtensionAPI.autocomplete c suggestions = [r] ∧
      r.body.lookup "method" = some (.str "autocomplete") ∧
      r.body.lookup "request_id" = some (.str rid) ∧
      r.body.lookup "suggestions" =
        some (.arr (suggestions.map (fun s => .obj (s.map (fun kv => (kv.1, .str kv.2))))))) ∧
    (∀ patch matches_, ∃ r, ExtensionAPI.update_file c patch matches_ = [r] ∧
      r.body.lookup "method" = some (.str "update_file") ∧
      r.body.lookup "request_id" = some (.str rid) ∧
      r.body.lookup "patch" = some (.arr (patch.map .str)) ∧
      r.body.lookup "matches" =
        some (.arr (matches_.map (fun m => .arr (m.map .num))))) ∧
    (∀ results, ∃ r, ExtensionAPI.highlight c results = [r] ∧
      r.body.lookup "method" = some (.str "highlight") ∧
      r.body.lookup "request_id" = some (.str rid) ∧
      r.body.lookup "results" = some (.arr (results.map .obj))) ∧
    (∀ text cursor_row cursor_column, ∃ r,
      ExtensionAPI.inline_completion c text cursor_row cursor_column = [r] ∧
      r.body.lookup "method" = some (.str "inline_completion") ∧
      r.body.lookup "request_id" = some (.str rid) ∧
      r.body.lookup "content" = some (.str text)) ∧
    (∀ message, ∃ r, ExtensionAPI.log c message = [r] ∧
      r.body.lookup "method" = some (.str "log") ∧
      r.body.lookup "request_id" = some (.str rid) ∧
      r.body.lookup "content" = some (.str message)) ∧
    (∀ title form_content, ∃ r, ExtensionAPI.ui_form c title form_content = [r] ∧
      r.body.lookup "method" = some (.str "ui_form") ∧
      r.body.lookup "request_id" = some (.str rid) ∧
      r.body.lookup "title" = some (.str title) ∧
      r.body.lookup "form_content" = some (.str form_content)) := by
  obtain ⟨rid', rp, opened, repo, cfp, cur, h1, _, _, _, _, _, hc⟩ :=
    loadCtx_ok_inv uuid k c h
  rw [hrid] at h1
  cases h1
  subst hc
  refine ⟨fun content => ⟨_, rfl, rfl, rfl, rfl⟩,
    ⟨_, rfl, rfl, rfl⟩,
    ⟨_, rfl, rfl, rfl⟩,
    fun suggestions => ⟨_, rfl, rfl, rfl, rfl⟩,
    fun patch matches_ => ⟨_, rfl, rfl, rfl, rfl, rfl⟩,
    fun results => ⟨_, rfl, rfl, rfl, rfl⟩,
    fun text cursor_row cursor_column => ⟨_, rfl, rfl, rfl, rfl⟩,
    fun message => ⟨_, rfl, rfl, rfl, rfl⟩,
    fun title form_content => ⟨_, rfl, rfl, rfl, rfl, rfl⟩⟩

theorem actions_single_post_method_request_id_witness :
    (∃ r, ExtensionAPI.chat sampleCtx2 "hi" = [r] ∧
      r.body.lookup "method" = some (.str "chat") ∧
      r.body.lookup "request_id" = some (.str "r2") ∧
      r.body.lookup "content" = some (.str "hi")) ∧
    (∃ r, ExtensionAPI.end_chat sampleCtx2 = [r] ∧
      r.body.lookup "method" = some (.str "end_chat") ∧
      r.body.lookup "request_id" = some (.str "r2")) ∧
    (∃ r, ExtensionAPI.start_chat sampleCtx2 = [r] ∧
      r.body.lookup "method" = some (.str "start_chat") ∧
      r.body.lookup "request_id" = some (.str "r2")) ∧
    (∃ r, ExtensionAPI.autocomplete sampleCtx2 [] = [r] ∧
      r.body.lookup "method" = some (.str "autocomplete") ∧
      r.body.lookup "request_id" = some (.str "r2") ∧
      r.body.lookup "suggestions" = some (.arr [])) ∧
    (∃ r, ExtensionAPI.update_file sampleCtx2 ["+x"] [[1, 2]] = [r] ∧
      r.body.lookup "method" = some (.str "update_file") ∧
      r.body.lookup "request_id" = some (.str "r2") ∧
      r.body.lookup "patch" = some (.arr [.str "+x"]) ∧
      r.body.lookup "matches" = some (.arr [.arr [.num 1, .num 2]])) ∧
    (∃ r, ExtensionAPI.highlight sampleCtx2 [] = [r] ∧
      r.body.lookup "method" = some (.str "highlight") ∧
      r.body.lookup "request_id" = some (.str "r2") ∧
      r.body.lookup "results" = some (.arr [])) ∧
    (∃ r, ExtensionAPI.inline_completion sampleCtx2 "txt" none none = [r] ∧
      r.body.lookup "method" = some (.str "inline_completion") ∧
      r.body.lookup "request_id" = some (.str "r2") ∧
      r.body.lookup "content" = some (.str "txt")) ∧
    (∃ r, ExtensionAPI.log sampleCtx2 "msg" = [r] ∧
      r.body.lookup "method" = some (.str "log") ∧
      r.body.lookup "request_id" = some (.str "r2") ∧
      r.body.lookup "content" = some (.str "msg")) ∧
    (∃ r, ExtensionAPI.ui_form sampleCtx2 "T" "F" = [r] ∧
      r.body.lookup "method" = some (.str "ui_form") ∧
      r.body.lookup "request_id" = some (.str "r2") ∧
      r.body.lookup "title" = some (.str "T") ∧
      r.body.lookup "form_content" = some (.str "F")) := by
  have h := actions_single_post_method_request_id "u" samplePayload2 sampleCtx2 "r2" rfl rfl
  exact ⟨h.1 "hi", h.2.1, h.2.2.1, h.2.2.2.1 [], h.2.2.2.2.1 ["+x"] [[1, 2]],
    h.2.2.2.2.2.1 [], h.2.2.2.2.2.2.1 "txt" none none, h.2.2.2.2.2.2.2.1 "msg",
    h.2.2.2.2.2.2.2.2 "T" "F"⟩

end NotBadAI
